import Mathlib

/-!
Shallow embedding of the network-smart-handler core (TypeScript) in Lean 4.

Modules embedded, each from its source file:
* `retryLogic` (src/unnamed/part_000): `calculateRetryDelay`, `isRetryableError`,
  `executeWithRetry`.
* `requestQueue` (src/src/core/requestQueue.ts): the `RequestQueue` class.
* `networkDetector` (src/src/core/networkDetector.ts): `WebNetworkDetector`.
* `networkHandler` (src/src/core/networkHandler.ts): status-monitoring callback and
  construction-time status of `NetworkHandler`.

JavaScript numbers are modelled as `ℚ` (with an explicit infinity where the code
produces `Infinity`), `Math.floor` as `Int.floor`, and `Math.random()` as an explicit
parameter `r : ℚ` with `0 ≤ r < 1`.  Asynchronous methods are modelled as pure state
transformers; a thrown exception is an `Except.error`.
-/

/-! ## Data model (src/src/types.ts) -/

inductive NetworkQuality where
  | weak
  | medium
  | strong
  deriving DecidableEq, Repr

inductive NetworkType where
  | wifi
  | cellular
  | ethernet
  | unknown
  | none
  deriving DecidableEq, Repr

/-- A JavaScript number that may be `Infinity` (as produced by a timed-out probe). -/
inductive Latency where
  | fin (q : ℚ)
  | inf
  deriving DecidableEq

structure NetworkStatus where
  isOnline : Bool
  quality : NetworkQuality
  type : NetworkType
  latency : Option Latency := Option.none
  throughput : Option ℚ := Option.none
  lastUpdated : Nat := 0
  deriving DecidableEq

inductive RetryStrategy where
  | fixed
  | exponential
  | exponentialJitter
  | exponentialPartialJitter
  deriving DecidableEq, Repr

/-- Structure `RetryConfig` from src/src/types.ts (the unused `jitter?: boolean` flag is not read
by any embedded function and is elided). -/
structure RetryConfig where
  maxAttempts : Nat
  strategy : RetryStrategy
  baseDelay : ℚ
  maxDelay : Option ℚ := Option.none
  retryableStatuses : Option (List Nat) := Option.none
  retryableErrors : Option (List String) := Option.none

inductive QueuePolicy where
  | dropOldest
  | dropNewest
  | persist
  | reject
  deriving DecidableEq, Repr

structure QueueConfig where
  policy : QueuePolicy
  maxSize : Option Nat := Option.none
  persistToStorage : Bool := false
  priority : Bool := false

/-- A `QueuedRequest` (src/src/types.ts).  The live `AbortController` is modelled by
its presence bit; the opaque `body` as an optional string; the passive
`retryConfig?: Partial<RetryConfig>` payload is elided (it is carried, never read,
by the queue). -/
structure QueuedRequest where
  id : String
  url : String
  method : String
  headers : List (String × String) := []
  body : Option String := Option.none
  priority : Option Int := Option.none
  timestamp : Nat := 0
  hasAbortController : Bool := false
  deriving DecidableEq, Repr

/-! ## retryLogic (src/unnamed/part_000) -/

/-- Model of an arbitrary JavaScript error value as inspected by `isRetryableError`:
`error?.constructor?.name`, `error?.name`, `error?.message`, `error?.code`,
`error?.response?.status`, `error instanceof TypeError`, and `String(error)`.
A missing (`undefined`) property is `Option.none`. -/
structure JsError where
  ctorName : Option String := Option.none
  name : Option String := Option.none
  message : Option String := Option.none
  code : Option String := Option.none
  responseStatus : Option Nat := Option.none
  isTypeError : Bool := false
  strRepr : String := "[object Object]"
  deriving DecidableEq, Repr

/-- JavaScript string truthiness combined with `||` fallback:
`o || d` where an absent or empty string falls through to `d`. -/
def jsOrStr (o : Option String) (d : String) : String :=
  match o with
  | Option.some s => if s = "" then d else s
  | Option.none => d

/-- Whether `needle` occurs as a contiguous sublist of the character list. -/
def listIncludes (needle : List Char) : List Char → Bool
  | [] => needle.isPrefixOf []
  | c :: t => needle.isPrefixOf (c :: t) || listIncludes needle t

/-- JavaScript `haystack.includes(needle)`. -/
def strIncludes (haystack needle : String) : Bool :=
  listIncludes needle.toList haystack.toList

/-- First branch of `isRetryableError`: the `config.retryableErrors` substring scan. -/
def retryableErrorsCheck (e : JsError) (config : RetryConfig) : Bool :=
  match config.retryableErrors with
  | Option.some l =>
    !l.isEmpty &&
      (let errorType := jsOrStr e.ctorName (jsOrStr e.name e.strRepr)
       let errorMessage := jsOrStr e.message e.strRepr
       l.any (fun retryable =>
         strIncludes errorType retryable || strIncludes errorMessage retryable))
  | Option.none => false

/-- Check for `error instanceof TypeError` with a fetch-flavoured message. -/
def typeErrorCheck (e : JsError) : Bool :=
  e.isTypeError &&
    (let m := jsOrStr e.message ""
     strIncludes m "fetch" || strIncludes m "Network request failed" ||
       strIncludes m "network" || strIncludes m "Failed to fetch")

/-- Check `error?.name === 'NetworkError' || error?.name === 'AbortError'`. -/
def nameCheck (e : JsError) : Bool :=
  e.name == Option.some "NetworkError" || e.name == Option.some "AbortError"

/-- Check `error?.code === 'ECONNREFUSED' || error?.code === 'ETIMEDOUT'`. -/
def codeCheck (e : JsError) : Bool :=
  e.code == Option.some "ECONNREFUSED" || e.code == Option.some "ETIMEDOUT"

/-- Check `error?.message?.includes('Network request failed') || error?.message?.includes('Failed to fetch')`. -/
def messageCheck (e : JsError) : Bool :=
  match e.message with
  | Option.some m => strIncludes m "Network request failed" || strIncludes m "Failed to fetch"
  | Option.none => false

/-- Final branch of `isRetryableError`: `if (error?.response?.status) { ... }`.
Note the truthiness guard (`status = 0` is skipped), and that the default
`status >= 500 || status === 408 || status === 429` rule runs whether or not
`config.retryableStatuses` was supplied. -/
def statusCheck (e : JsError) (config : RetryConfig) : Bool :=
  match e.responseStatus with
  | Option.some status =>
    decide (status ≠ 0) &&
      ((match config.retryableStatuses with
        | Option.some l => l.contains status
        | Option.none => false) ||
       (decide (500 ≤ status) || decide (status = 408) || decide (status = 429)))
  | Option.none => false

/-- Function `isRetryableError(error, config)`; the early `return true`s become `||`. -/
def isRetryableError (e : JsError) (config : RetryConfig) : Bool :=
  retryableErrorsCheck e config || typeErrorCheck e ||
    nameCheck e || codeCheck e || messageCheck e || statusCheck e config

/-- Function `calculateRetryDelay(attempt, config)` with `Math.random()` passed in as `r`.
The source computes a raw delay by strategy, caps it at `maxDelay` when defined and
returns `Math.max(0, Math.floor(delay))`.  (The code is only invoked with
`attempt ≥ 1`; `attempt - 1` below is natural subtraction.) -/
def calculateRetryDelay (attempt : Nat) (config : RetryConfig) (r : ℚ) : Int :=
  let delay : ℚ :=
    match config.strategy with
    | RetryStrategy.fixed => config.baseDelay
    | RetryStrategy.exponential => config.baseDelay * 2 ^ (attempt - 1)
    | RetryStrategy.exponentialJitter =>
      r * (config.baseDelay * 2 ^ (attempt - 1))
    | RetryStrategy.exponentialPartialJitter =>
      let d := config.baseDelay * 2 ^ (attempt - 1)
      let minDelay := d / 2
      minDelay + r * (d - minDelay)
  let capped : ℚ :=
    match config.maxDelay with
    | Option.some m => min delay m
    | Option.none => delay
  max 0 ⌊capped⌋

/-- Outcome of `executeWithRetry`: a value, a thrown error, the degenerate
`throw lastError` with `lastError` still `undefined` (loop body never ran), or the
`'Request aborted'` throw from the abort guard. -/
inductive RetryOutcome (α : Type) where
  | ok (a : α)
  | err (e : JsError)
  | errUndefined
  | errAborted
  deriving DecidableEq, Repr

/-- Loop body of `executeWithRetry`.  `attempt` is the current attempt number,
`remaining` the number of loop iterations left (`maxAttempts - attempt + 1`), `last`
the `lastError` variable.  Besides the outcome it records the attempt numbers at
which `fn` was invoked and the waits (`sleep` durations) performed, in order. -/
def retryAux (fn : Nat → Except JsError α) (config : RetryConfig) (rand : Nat → ℚ)
    (aborted : Bool) : Nat → Nat → Option JsError →
    RetryOutcome α × List Nat × List Int
  | _, 0, last =>
    (match last with
     | Option.some e => RetryOutcome.err e
     | Option.none => RetryOutcome.errUndefined, [], [])
  | attempt, remaining + 1, _ =>
    if aborted then (RetryOutcome.errAborted, [], [])
    else
      match fn attempt with
      | Except.ok a => (RetryOutcome.ok a, [attempt], [])
      | Except.error e =>
        if !isRetryableError e config then (RetryOutcome.err e, [attempt], [])
        else if remaining = 0 then (RetryOutcome.err e, [attempt], [])
        else
          let d := calculateRetryDelay attempt config (rand attempt)
          let rest := retryAux fn config rand aborted (attempt + 1) remaining (Option.some e)
          (rest.1, attempt :: rest.2.1, d :: rest.2.2)

/-- Function `executeWithRetry(fn, config, abortSignal)`: the loop runs `attempt = 1..maxAttempts`.
`rand` supplies the `Math.random()` draw used for the backoff of each attempt and
`aborted` the (constant) state of the abort signal. -/
def executeWithRetry (fn : Nat → Except JsError α) (config : RetryConfig)
    (rand : Nat → ℚ) (aborted : Bool) : RetryOutcome α × List Nat × List Int :=
  retryAux fn config rand aborted 1 config.maxAttempts Option.none

/-! ## requestQueue (src/src/core/requestQueue.ts) -/

/-- One entry of the serialized array held under the storage key.  `saveToStorage`
destructures the `abortController` field away before `JSON.stringify`, so entries it
writes never carry one; `hasAbort` models the truthiness of an `abortController` key
in the stored JSON (always `false` for data produced by `saveToStorage`). -/
structure StoredRequest where
  id : String
  url : String
  method : String
  headers : List (String × String) := []
  body : Option String := Option.none
  priority : Option Int := Option.none
  timestamp : Nat := 0
  hasAbort : Bool := false
  deriving DecidableEq, Repr

/-- A storage backend (`StorageAdapter` contract): the value held at the queue's
storage key, plus per-method fault switches modelling a backend whose call raises. -/
structure Storage where
  data : Option (List StoredRequest) := Option.none
  getFails : Bool := false
  setFails : Bool := false
  removeFails : Bool := false

/-- Call `storage.getItem(key)`; raises iff the backend is faulty. -/
def storageGetItem (st : Storage) : Except Unit (Option (List StoredRequest)) :=
  if st.getFails then Except.error () else Except.ok st.data

/-- Call `storage.setItem(key, value)`; raises iff the backend is faulty. -/
def storageSetItem (st : Storage) (v : List StoredRequest) : Except Unit Storage :=
  if st.setFails then Except.error () else Except.ok { st with data := Option.some v }

/-- Call `storage.removeItem(key)`; raises iff the backend is faulty. -/
def storageRemoveItem (st : Storage) : Except Unit Storage :=
  if st.removeFails then Except.error () else Except.ok { st with data := Option.none }

namespace RequestQueue

/-- In-memory queue plus the (optional) storage adapter handed to the constructor. -/
structure State where
  queue : List QueuedRequest
  storage : Option Storage

/-- Models `const { abortController, ...rest } = req; return rest` inside `saveToStorage`. -/
def serializeReq (r : QueuedRequest) : StoredRequest :=
  { id := r.id, url := r.url, method := r.method, headers := r.headers,
    body := r.body, priority := r.priority, timestamp := r.timestamp,
    hasAbort := false }

/-- The per-entry map in `loadFromStorage`:
`{ ...req, abortController: req.abortController ? new AbortController() : undefined }`. -/
def restoreReq (s : StoredRequest) : QueuedRequest :=
  { id := s.id, url := s.url, method := s.method, headers := s.headers,
    body := s.body, priority := s.priority, timestamp := s.timestamp,
    hasAbortController := s.hasAbort }

/-- Method `saveToStorage`: `try { setItem(key, serialized) } catch { console.warn(...) }` —
a raising backend leaves the stored value unchanged and the failure is swallowed. -/
def saveToStorage (q : List QueuedRequest) (st : Storage) : Storage :=
  match storageSetItem st (q.map serializeReq) with
  | Except.ok st2 => st2
  | Except.error _ => st

/-- Guard `if (this.config.persistToStorage && this.storage) await this.saveToStorage()`. -/
def persistAfter (config : QueueConfig) (s : State) : State :=
  match config.persistToStorage, s.storage with
  | true, Option.some st => { s with storage := Option.some (saveToStorage s.queue st) }
  | _, _ => s

/-- Method `loadFromStorage`: `try { data = getItem(key); if (data) queue = parse(data).map(...) }
catch { console.warn(...) }`.  Returns the resulting in-memory queue. -/
def loadFromStorage (st : Storage) (q : List QueuedRequest) : List QueuedRequest :=
  match storageGetItem st with
  | Except.error _ => q
  | Except.ok Option.none => q
  | Except.ok (Option.some l) => l.map restoreReq

/-- The `RequestQueue` constructor: reloads from storage when persistence is enabled
and a storage adapter is present. -/
def mkQueue (config : QueueConfig) (storage : Option Storage) : State :=
  match config.persistToStorage, storage with
  | true, Option.some st => { queue := loadFromStorage st [], storage := Option.some st }
  | _, _ => { queue := [], storage := storage }

/-- Effective priority `(req.priority || 0)` of a resident entry. -/
def effPriority (r : QueuedRequest) : Int :=
  r.priority.getD 0

/-- The insertion step of `enqueue`: when priority mode is on and the new request
carries a priority, splice it in at `findIndex(req => (req.priority || 0) < p)`
(append when no resident has strictly lower priority); otherwise plain FIFO push. -/
def insertWithPriority (config : QueueConfig) (q : List QueuedRequest)
    (req : QueuedRequest) : List QueuedRequest :=
  match config.priority, req.priority with
  | true, Option.some p =>
    match q.findIdx? (fun r => decide (effPriority r < p)) with
    | Option.none => q ++ [req]
    | Option.some i => q.take i ++ req :: q.drop i
  | _, _ => q ++ [req]

/-- The capacity test `this.config.maxSize && this.queue.length >= this.config.maxSize`
(note `maxSize = 0` is falsy and disables the check). -/
def atCapacity (config : QueueConfig) (q : List QueuedRequest) : Bool :=
  match config.maxSize with
  | Option.some m => decide (m ≠ 0) && decide (m ≤ q.length)
  | Option.none => false

/-- Method `enqueue(request)`.  The first component is the returned id, or the thrown
`'Queue is full'` error; the second is the state of the queue when the method
finishes (for a throw: at the moment of the throw). -/
def enqueue (config : QueueConfig) (s : State) (req : QueuedRequest) :
    Except String String × State :=
  match atCapacity config s.queue, config.policy with
  | true, QueuePolicy.reject => (Except.error "Queue is full", s)
  | true, QueuePolicy.dropNewest =>
    -- early `return queuedRequest.id`: no insertion, and no persistence call
    (Except.ok req.id, s)
  | true, QueuePolicy.dropOldest =>
    let q1 := s.queue.drop 1
    let q2 := insertWithPriority config q1 req
    (Except.ok req.id, persistAfter config { s with queue := q2 })
  | true, QueuePolicy.persist =>
    let q2 := insertWithPriority config s.queue req
    (Except.ok req.id, persistAfter config { s with queue := q2 })
  | false, _ =>
    let q2 := insertWithPriority config s.queue req
    (Except.ok req.id, persistAfter config { s with queue := q2 })

/-- Method `dequeue()`: `shift()`, persisting only when an element was removed. -/
def dequeue (config : QueueConfig) (s : State) : Option QueuedRequest × State :=
  match s.queue with
  | [] => (Option.none, s)
  | r :: rest => (Option.some r, persistAfter config { s with queue := rest })

/-- Method `remove(id)`: `findIndex` + `splice(index, 1)`, persisting on success. -/
def remove (config : QueueConfig) (s : State) (id : String) : Bool × State :=
  match s.queue.findIdx? (fun r => r.id == id) with
  | Option.none => (false, s)
  | Option.some i =>
    (true, persistAfter config { s with queue := s.queue.take i ++ s.queue.drop (i + 1) })

/-- Method `clear()`: empties the in-memory queue, then `await storage.removeItem(key)` —
this storage call is NOT wrapped in try/catch, so a raising backend propagates. -/
def clear (config : QueueConfig) (s : State) : Except Unit Unit × State :=
  let s1 : State := { s with queue := [] }
  match config.persistToStorage, s1.storage with
  | true, Option.some st =>
    match storageRemoveItem st with
    | Except.ok st2 => (Except.ok (), { s1 with storage := Option.some st2 })
    | Except.error e => (Except.error e, s1)
  | _, _ => (Except.ok (), s1)

end RequestQueue

/-! ## networkDetector (src/src/core/networkDetector.ts), `WebNetworkDetector` -/

structure QualityThresholds where
  weak : ℚ
  medium : ℚ

/-- The slice of `NetworkHandlerConfig` read by the detector. -/
structure DetectorConfig where
  qualityThresholds : Option QualityThresholds := Option.none
  enableQualityTesting : Bool := false
  respectDataSaver : Bool := false

namespace WebNetworkDetector

/-- Method `determineQuality(latency)` with defaults `weak = 1000`, `medium = 300`. -/
def determineQuality (config : DetectorConfig) (l : Latency) : NetworkQuality :=
  let weakThreshold := (config.qualityThresholds.map QualityThresholds.weak).getD 1000
  let mediumThreshold := (config.qualityThresholds.map QualityThresholds.medium).getD 300
  match l with
  | Latency.inf => NetworkQuality.weak
  | Latency.fin q =>
    if weakThreshold ≤ q then NetworkQuality.weak
    else if mediumThreshold ≤ q then NetworkQuality.medium
    else NetworkQuality.strong

/-- The `updates` argument of `updateStatus` (a `Partial<NetworkStatus>`; only the
fields the detector ever passes are modelled). -/
structure StatusUpdates where
  isOnline : Option Bool := Option.none
  quality : Option NetworkQuality := Option.none

/-- Method `updateStatus(updates)`: probes only when quality testing is enabled and
`updates.isOnline !== false`; `probe`/`probeThroughput` stand for the results the
asynchronous measurements would deliver.  Mirrors the object spread
`{ ...current, ...updates, quality, latency, throughput, lastUpdated }` (so an
omitted probe clears any stale latency/throughput fields). -/
def updateStatus (config : DetectorConfig) (current : NetworkStatus)
    (updates : StatusUpdates) (probe : Latency) (probeThroughput : ℚ) (now : Nat) :
    NetworkStatus :=
  let doProbe := config.enableQualityTesting && !(updates.isOnline == Option.some false)
  let latency : Option Latency := if doProbe then Option.some probe else Option.none
  let throughput : Option ℚ :=
    if doProbe && !config.respectDataSaver then Option.some probeThroughput
    else Option.none
  let quality :=
    match latency with
    | Option.some l => determineQuality config l
    | Option.none =>
      match updates.quality with
      | Option.some qu => qu
      | Option.none => current.quality
  { isOnline := updates.isOnline.getD current.isOnline
    quality := quality
    type := current.type
    latency := latency
    throughput := throughput
    lastUpdated := now }

/-- Handler `handleOffline`: `updateStatus({ isOnline: false, quality: 'weak' })`. -/
def handleOffline (config : DetectorConfig) (current : NetworkStatus)
    (probe : Latency) (probeThroughput : ℚ) (now : Nat) : NetworkStatus :=
  updateStatus config current
    { isOnline := Option.some false, quality := Option.some NetworkQuality.weak }
    probe probeThroughput now

/-- Handler `handleOnline`: `updateStatus({ isOnline: true })`. -/
def handleOnline (config : DetectorConfig) (current : NetworkStatus)
    (probe : Latency) (probeThroughput : ℚ) (now : Nat) : NetworkStatus :=
  updateStatus config current { isOnline := Option.some true } probe probeThroughput now

/-- Method `getInitialStatus()`: `navigator.onLine` when a navigator exists (else offline),
quality hard-coded to `'medium'`, link type from `detectNetworkType()`. -/
def getInitialStatus (navigatorOnLine : Option Bool) (detectedType : NetworkType)
    (now : Nat) : NetworkStatus :=
  { isOnline := navigatorOnLine.getD false
    quality := NetworkQuality.medium
    type := detectedType
    lastUpdated := now }

end WebNetworkDetector

/-! ## networkHandler (src/src/core/networkHandler.ts) -/

inductive NetworkEventType where
  | online
  | offline
  | qualityChanged
  | typeChanged
  | requestQueued
  | requestDequeued
  | requestRetried
  | requestSucceeded
  | requestFailed
  deriving DecidableEq, Repr

/-- A telemetry event as emitted by `emitEvent` (timestamp elided; the payload slots
relevant to the status-transition events are modelled). -/
structure TelemetryEvent where
  type : NetworkEventType
  previousQuality : Option NetworkQuality := Option.none
  previousType : Option NetworkType := Option.none
  deriving DecidableEq

namespace NetworkHandler

/-- The status installed by the `NetworkHandler` constructor before `initialize`
resolves (lines 52–57): offline yet with quality `'medium'`. -/
def initialStatus : NetworkStatus :=
  { isOnline := false, quality := NetworkQuality.medium, type := NetworkType.unknown }

/-- The monitoring callback registered in `initialize` (lines 80–107): given the
stored `this.currentStatus` and the incoming `status`, returns the new stored status
and the telemetry events emitted, in order.  NOTE the source assigns
`this.currentStatus = status` BEFORE comparing `this.currentStatus.quality !==
status.quality` and `this.currentStatus.type !== status.type`; the model reproduces
that order faithfully via the shadowing `current` binding. -/
def monitorCallback (currentStatus status : NetworkStatus) :
    NetworkStatus × List TelemetryEvent :=
  let wasOffline := !currentStatus.isOnline
  let current := status
  let transitionEvents : List TelemetryEvent :=
    if wasOffline && status.isOnline then [{ type := NetworkEventType.online }]
    else if !wasOffline && !status.isOnline then [{ type := NetworkEventType.offline }]
    else []
  let qualityEvents : List TelemetryEvent :=
    if current.quality ≠ status.quality then
      [{ type := NetworkEventType.qualityChanged, previousQuality := Option.some current.quality }]
    else []
  let typeEvents : List TelemetryEvent :=
    if current.type ≠ status.type then
      [{ type := NetworkEventType.typeChanged, previousType := Option.some current.type }]
    else []
  (current, transitionEvents ++ qualityEvents ++ typeEvents)

end NetworkHandler

/-! ## Proof-side reformulations and concrete example data -/

namespace RequestQueue

/-- Recursive reformulation of the `findIndex` + `splice` insertion of `enqueue`
(insert immediately before the first entry of strictly lower effective priority,
else append).  `insertWithPriority_eq_insertRec` below proves it equal to the
embedded definition. -/
def insertRec (p : Int) (req : QueuedRequest) : List QueuedRequest → List QueuedRequest
  | [] => [req]
  | r :: t => if effPriority r < p then req :: r :: t else r :: insertRec p req t

/-- The descending effective-priority order maintained by priority-mode insertion. -/
def PriorityDesc (q : List QueuedRequest) : Prop :=
  List.Pairwise (fun a b => effPriority b ≤ effPriority a) q

instance (q : List QueuedRequest) : Decidable (PriorityDesc q) := by
  unfold PriorityDesc
  infer_instance

end RequestQueue

/-- Repeatedly `dequeue` `n` times and record the ids obtained, in order. -/
def dequeueIds (config : QueueConfig) (s : RequestQueue.State) : Nat → List String
  | 0 => []
  | n + 1 =>
    match RequestQueue.dequeue config s with
    | (Option.some r, s2) => r.id :: dequeueIds config s2 n
    | (Option.none, _) => []

/-- Example calls from the spec examples (ids and priorities as given there;
`enqueuedAt` timestamps record arrival order). -/
def reqA : QueuedRequest :=
  { id := "A", url := "/a", method := "GET", priority := Option.some 1, timestamp := 0 }

def reqB : QueuedRequest :=
  { id := "B", url := "/b", method := "GET", priority := Option.some 5, timestamp := 1 }

def reqC : QueuedRequest :=
  { id := "C", url := "/c", method := "GET", priority := Option.some 1, timestamp := 2 }

def reqD : QueuedRequest :=
  { id := "D", url := "/d", method := "GET", priority := Option.some 3, timestamp := 2 }

/-- Priority-mode queue config of the C7 example. -/
def c7config : QueueConfig :=
  { policy := QueuePolicy.dropOldest, priority := true }

def c7s1 : RequestQueue.State :=
  (RequestQueue.enqueue c7config (RequestQueue.mkQueue c7config Option.none) reqA).2

def c7s2 : RequestQueue.State :=
  (RequestQueue.enqueue c7config c7s1 reqB).2

def c7s3 : RequestQueue.State :=
  (RequestQueue.enqueue c7config c7s2 reqC).2

/-- Config with `maxSize = 2` and `policy = reject` (the C8 example). -/
def c8config : QueueConfig :=
  { policy := QueuePolicy.reject, maxSize := Option.some 2 }

def c8s1 : RequestQueue.State :=
  (RequestQueue.enqueue c8config (RequestQueue.mkQueue c8config Option.none) reqA).2

def c8s2 : RequestQueue.State :=
  (RequestQueue.enqueue c8config c8s1 reqB).2

/-- Config with `maxSize = 2`, `policy = drop-oldest`, priority mode on (C10). -/
def c10config : QueueConfig :=
  { policy := QueuePolicy.dropOldest, maxSize := Option.some 2, priority := true }

def c10s1 : RequestQueue.State :=
  (RequestQueue.enqueue c10config (RequestQueue.mkQueue c10config Option.none) reqA).2

def c10s2 : RequestQueue.State :=
  (RequestQueue.enqueue c10config c10s1 reqB).2

/-- A persistence-enabled queue config (C4, C9). -/
def c4config : QueueConfig :=
  { policy := QueuePolicy.dropOldest, persistToStorage := true }

/-- A storage backend whose `removeItem` raises. -/
def c4storage : Storage :=
  { removeFails := true }

/-- A persistence-enabled queue holding one call, over the faulty backend. -/
def c4state : RequestQueue.State :=
  { queue := [reqA], storage := Option.some c4storage }

/-- A queued call holding a live cancellation token (C9). -/
def c9req : QueuedRequest :=
  { id := "R1", url := "/r", method := "POST", headers := [("a", "b")],
    priority := Option.some 2, timestamp := 7, hasAbortController := true }

/-- A healthy storage backend (C9). -/
def c9storage : Storage := {}

/-- Config with a non-empty explicit retryable-status list that does not contain 500
(C3 counterexample). -/
def c3config : RetryConfig :=
  { maxAttempts := 3, strategy := RetryStrategy.fixed, baseDelay := 0,
    retryableStatuses := Option.some [418] }

/-- A failure carrying HTTP status 500 and matching no other criterion. -/
def c3error : JsError :=
  { responseStatus := Option.some 500, strRepr := "e" }

/-- Config `baseDelayMs=100, strategy=fixed, maxAttempts=3` (the C5 example). -/
def c5config : RetryConfig :=
  { maxAttempts := 3, strategy := RetryStrategy.fixed, baseDelay := ((100 : ℕ) : ℚ) }

/-- A retryable transport failure (`error.code === 'ETIMEDOUT'`). -/
def c5error : JsError :=
  { code := Option.some "ETIMEDOUT" }

/-- Partial-jitter config with odd backoff base 1 (C6 counterexample). -/
def c6config : RetryConfig :=
  { maxAttempts := 3, strategy := RetryStrategy.exponentialPartialJitter, baseDelay := 1 }

/-- Partial-jitter config with base 5 (C6 witness). -/
def c6configW : RetryConfig :=
  { maxAttempts := 3, strategy := RetryStrategy.exponentialPartialJitter,
    baseDelay := ((5 : ℕ) : ℚ) }

/-- Stored status before the sensor update of the C1 failing input. -/
def c1previous : NetworkStatus :=
  { isOnline := true, quality := NetworkQuality.strong, type := NetworkType.wifi }

/-- Incoming sensor status of the C1 failing input: quality and link type both
differ from the stored status. -/
def c1incoming : NetworkStatus :=
  { isOnline := true, quality := NetworkQuality.weak, type := NetworkType.cellular }

/-! ## Helper lemmas -/

theorem persistAfter_queue (config : QueueConfig) (s : RequestQueue.State) :
    (RequestQueue.persistAfter config s).queue = s.queue := by
  unfold RequestQueue.persistAfter
  cases config.persistToStorage <;> cases s.storage <;> rfl

theorem findIdx?_start_add {α : Type} (p : α → Bool) (l : List α) (i : Nat) :
    List.findIdx? p l i = (List.findIdx? p l 0).map (fun j => j + i) := by
  induction l generalizing i with
  | nil => simp [List.findIdx?_nil]
  | cons a t ih =>
    rw [List.findIdx?_cons, List.findIdx?_cons]
    by_cases h : p a = true
    · simp [h]
    · rw [if_neg h, if_neg h, ih (i + 1), ih 1]
      cases List.findIdx? p t 0 with
      | none => simp
      | some j => simp; omega

theorem insertWithPriority_eq_insertRec (config : QueueConfig) (req : QueuedRequest)
    (p : Int) (hc : config.priority = true) (hp : req.priority = Option.some p)
    (q : List QueuedRequest) :
    RequestQueue.insertWithPriority config q req = RequestQueue.insertRec p req q := by
  simp only [RequestQueue.insertWithPriority, hc, hp]
  induction q with
  | nil => simp [List.findIdx?_nil, RequestQueue.insertRec]
  | cons r t ih =>
    rw [RequestQueue.insertRec, List.findIdx?_cons]
    by_cases h : RequestQueue.effPriority r < p
    · simp [h]
    · rw [if_neg (by simpa using h), findIdx?_start_add _ t 1, if_neg (by simpa using h)]
      cases h2 : List.findIdx? (fun r => decide (RequestQueue.effPriority r < p)) t 0 with
      | none =>
        rw [h2] at ih
        simpa using ih
      | some i =>
        rw [h2] at ih
        simpa using ih

theorem insertRec_split (p : Int) (req : QueuedRequest) (q : List QueuedRequest) :
    ∃ l₁ l₂, q = l₁ ++ l₂ ∧ RequestQueue.insertRec p req q = l₁ ++ req :: l₂ ∧
      (∀ r ∈ l₁, p ≤ RequestQueue.effPriority r) ∧
      (∀ hd, l₂.head? = Option.some hd → RequestQueue.effPriority hd < p) := by
  induction q with
  | nil =>
    exact ⟨[], [], rfl, rfl, by simp, by simp⟩
  | cons r t ih =>
    by_cases h : RequestQueue.effPriority r < p
    · refine ⟨[], r :: t, rfl, by simp [RequestQueue.insertRec, h], by simp, ?_⟩
      intro hd hhd
      simp only [List.head?_cons, Option.some.injEq] at hhd
      exact hhd ▸ h
    · obtain ⟨l₁, l₂, he, hi, h1, h2⟩ := ih
      refine ⟨r :: l₁, l₂, by simp [he], by simp [RequestQueue.insertRec, h, hi], ?_, h2⟩
      intro x hx
      rcases List.mem_cons.1 hx with rfl | hx
      · exact not_lt.1 h
      · exact h1 x hx

theorem pairwise_head_lt (p : Int) (l₂ : List QueuedRequest)
    (hp : RequestQueue.PriorityDesc l₂)
    (hh : ∀ hd, l₂.head? = Option.some hd → RequestQueue.effPriority hd < p) :
    ∀ r ∈ l₂, RequestQueue.effPriority r < p := by
  cases l₂ with
  | nil => simp
  | cons a t =>
    intro r hr
    have ha := hh a rfl
    rcases List.mem_cons.1 hr with rfl | hr
    · exact ha
    · exact lt_of_le_of_lt ((List.pairwise_cons.1 hp).1 r hr) ha

/-- Priority-mode insertion of a priority-bearing call preserves the descending
effective-priority order (so queues built from such enqueues are always sorted —
this justifies the order hypothesis of the C7 and C10 theorems). -/
theorem insertRec_priorityDesc (p : Int) (req : QueuedRequest)
    (hreq : RequestQueue.effPriority req = p) (q : List QueuedRequest)
    (hq : RequestQueue.PriorityDesc q) :
    RequestQueue.PriorityDesc (RequestQueue.insertRec p req q) := by
  induction q with
  | nil =>
    simp [RequestQueue.insertRec, RequestQueue.PriorityDesc]
  | cons r t ih =>
    have hrt := List.pairwise_cons.1 hq
    by_cases h : RequestQueue.effPriority r < p
    · rw [RequestQueue.insertRec, if_pos h]
      refine List.pairwise_cons.2 ⟨?_, hq⟩
      intro b hb
      rcases List.mem_cons.1 hb with rfl | hb
      · exact hreq ▸ le_of_lt h
      · exact hreq ▸ le_of_lt (lt_of_le_of_lt (hrt.1 b hb) h)
    · rw [RequestQueue.insertRec, if_neg h]
      refine List.pairwise_cons.2 ⟨?_, ih hrt.2⟩
      intro b hb
      obtain ⟨l₁, l₂, he, hi, h1, -⟩ := insertRec_split p req t
      rw [hi] at hb
      rcases List.mem_append.1 hb with hb | hb
      · exact hrt.1 b (he ▸ List.mem_append.2 (Or.inl hb))
      · rcases List.mem_cons.1 hb with rfl | hb
        · exact hreq ▸ not_lt.1 h
        · exact hrt.1 b (he ▸ List.mem_append.2 (Or.inr hb))

theorem enqueue_not_full (config : QueueConfig) (s : RequestQueue.State)
    (req : QueuedRequest) (hcap : RequestQueue.atCapacity config s.queue = false) :
    RequestQueue.enqueue config s req =
      (Except.ok req.id,
       RequestQueue.persistAfter config
         { s with queue := RequestQueue.insertWithPriority config s.queue req }) := by
  unfold RequestQueue.enqueue
  rw [hcap]

theorem enqueue_full_dropOldest (config : QueueConfig) (s : RequestQueue.State)
    (req : QueuedRequest) (hcap : RequestQueue.atCapacity config s.queue = true)
    (hpol : config.policy = QueuePolicy.dropOldest) :
    RequestQueue.enqueue config s req =
      (Except.ok req.id,
       RequestQueue.persistAfter config
         { s with queue := RequestQueue.insertWithPriority config (s.queue.drop 1) req }) := by
  unfold RequestQueue.enqueue
  rw [hcap, hpol]

/-! ## Claims -/

/-- C7 (confirmed): with priority mode enabled, enqueueing a priority-bearing call
into a (descending-sorted) queue splits the queue as `l₁ ++ l₂` where every entry of
`l₁` has equal or higher effective priority and every entry of `l₂` strictly lower;
the new call lands exactly between them — immediately before the first existing call
of strictly lower priority and after all calls of equal or higher priority, which
keeps equal-priority arrivals in order.  Consequently enqueuing A(priority 1),
B(priority 5), C(priority 1) into an empty queue dequeues B, A, C. -/
theorem C7_priority_insertion_order :
    (∀ (config : QueueConfig) (s : RequestQueue.State) (req : QueuedRequest) (p : Int),
      config.priority = true → req.priority = Option.some p →
      RequestQueue.atCapacity config s.queue = false →
      RequestQueue.PriorityDesc s.queue →
      ∃ l₁ l₂, s.queue = l₁ ++ l₂ ∧
        (RequestQueue.enqueue config s req).1 = Except.ok req.id ∧
        (RequestQueue.enqueue config s req).2.queue = l₁ ++ req :: l₂ ∧
        (∀ r ∈ l₁, p ≤ RequestQueue.effPriority r) ∧
        (∀ r ∈ l₂, RequestQueue.effPriority r < p)) ∧
    dequeueIds c7config c7s3 3 = ["B", "A", "C"] := by
  constructor
  · intro config s req p hc hp hcap hsort
    obtain ⟨l₁, l₂, he, hi, h1, h2⟩ := insertRec_split p req s.queue
    refine ⟨l₁, l₂, he, ?_, ?_, h1, ?_⟩
    · rw [enqueue_not_full config s req hcap]
    · rw [enqueue_not_full config s req hcap]
      show (RequestQueue.persistAfter config _).queue = _
      rw [persistAfter_queue]
      show RequestQueue.insertWithPriority config s.queue req = _
      rw [insertWithPriority_eq_insertRec config req p hc hp, hi]
    · have hpl₂ : RequestQueue.PriorityDesc l₂ :=
        (List.pairwise_append.1 (he ▸ hsort)).2.1
      exact pairwise_head_lt p l₂ hpl₂ h2
  · decide

/-- C7 witness: the general statement applied to the concrete sorted queue
`[B(priority 5), A(priority 1)]` with the new call C(priority 1). -/
theorem C7_priority_insertion_order_witness :
    c7config.priority = true ∧ reqC.priority = Option.some 1 ∧
    RequestQueue.atCapacity c7config c7s2.queue = false ∧
    RequestQueue.PriorityDesc c7s2.queue ∧
    (∃ l₁ l₂, c7s2.queue = l₁ ++ l₂ ∧
      (RequestQueue.enqueue c7config c7s2 reqC).1 = Except.ok reqC.id ∧
      (RequestQueue.enqueue c7config c7s2 reqC).2.queue = l₁ ++ reqC :: l₂ ∧
      (∀ r ∈ l₁, 1 ≤ RequestQueue.effPriority r) ∧
      (∀ r ∈ l₂, RequestQueue.effPriority r < 1)) :=
  ⟨rfl, rfl, by decide, by decide,
   C7_priority_insertion_order.1 c7config c7s2 reqC 1 rfl rfl (by decide) (by decide)⟩

/-- C8 (confirmed): a queue with a nonzero `maxSize` under the `reject` policy, at
capacity, throws `'Queue is full'` from `enqueue` and is left completely unchanged
(in-memory contents, order and stored value alike). -/
theorem C8_reject_policy_atomic (config : QueueConfig) (s : RequestQueue.State)
    (req : QueuedRequest) (m : Nat) (hpol : config.policy = QueuePolicy.reject)
    (hms : config.maxSize = Option.some m) (hm0 : m ≠ 0) (hcap : m ≤ s.queue.length) :
    RequestQueue.enqueue config s req = (Except.error "Queue is full", s) := by
  have hc : RequestQueue.atCapacity config s.queue = true := by
    unfold RequestQueue.atCapacity
    rw [hms]
    simp [hm0, hcap]
  unfold RequestQueue.enqueue
  rw [hc, hpol]

/-- C8 witness: `maxSize=2, policy=reject`; after enqueuing A then B the queue is
`[A, B]`; enqueuing C throws and the state (hence the queue `[A, B]`) is unchanged. -/
theorem C8_reject_policy_atomic_witness :
    c8s2.queue = [reqA, reqB] ∧
    RequestQueue.enqueue c8config c8s2 reqC = (Except.error "Queue is full", c8s2) :=
  ⟨by decide, C8_reject_policy_atomic c8config c8s2 reqC 2 rfl rfl (by decide) (by decide)⟩

/-- C10 (confirmed, implicit claim): with priority mode on and the queue at capacity
under `drop-oldest`, `enqueue` evicts the entry at index 0 of the ordered sequence;
in a descending-sorted priority queue that entry has maximal effective priority among
all residents, so drop-oldest discards a highest-priority call (not necessarily the
oldest by arrival time, as the witness shows). -/
theorem C10_dropOldest_evicts_highest_priority (config : QueueConfig)
    (s : RequestQueue.State) (req : QueuedRequest) (m : Nat)
    (hpol : config.policy = QueuePolicy.dropOldest) (hms : config.maxSize = Option.some m)
    (hm0 : m ≠ 0) (hcap : m ≤ s.queue.length) (hsort : RequestQueue.PriorityDesc s.queue) :
    ∃ evicted rest, s.queue = evicted :: rest ∧
      (RequestQueue.enqueue config s req).1 = Except.ok req.id ∧
      (RequestQueue.enqueue config s req).2.queue =
        RequestQueue.insertWithPriority config rest req ∧
      (∀ r ∈ s.queue, RequestQueue.effPriority r ≤ RequestQueue.effPriority evicted) := by
  have hc : RequestQueue.atCapacity config s.queue = true := by
    unfold RequestQueue.atCapacity
    rw [hms]
    simp [hm0, hcap]
  cases hq : s.queue with
  | nil =>
    rw [hq] at hcap
    simp at hcap
    omega
  | cons evicted rest =>
    refine ⟨evicted, rest, rfl, ?_, ?_, ?_⟩
    · rw [enqueue_full_dropOldest config s req hc hpol]
    · rw [enqueue_full_dropOldest config s req hc hpol]
      show (RequestQueue.persistAfter config _).queue = _
      rw [persistAfter_queue]
      show RequestQueue.insertWithPriority config (s.queue.drop 1) req = _
      rw [hq]
      rfl
    · intro r hr
      rcases List.mem_cons.1 hr with rfl | hr
      · exact le_refl _
      · exact (List.pairwise_cons.1 (hq ▸ hsort)).1 r hr

/-- C10 witness: queue `[B(priority 5, arrived at t=1), A(priority 1, arrived at t=0)]`
at capacity 2; enqueueing D(priority 3) evicts B — the highest-priority resident,
and the newest by arrival time (B arrived after A) — leaving `[D, A]`. -/
theorem C10_dropOldest_evicts_highest_priority_witness :
    c10s2.queue = [reqB, reqA] ∧ reqA.timestamp < reqB.timestamp ∧
    (RequestQueue.enqueue c10config c10s2 reqD).2.queue = [reqD, reqA] ∧
    (∃ evicted rest, c10s2.queue = evicted :: rest ∧
      (RequestQueue.enqueue c10config c10s2 reqD).1 = Except.ok reqD.id ∧
      (RequestQueue.enqueue c10config c10s2 reqD).2.queue =
        RequestQueue.insertWithPriority c10config rest reqD ∧
      (∀ r ∈ c10s2.queue, RequestQueue.effPriority r ≤ RequestQueue.effPriority evicted)) :=
  ⟨by decide, by decide, by decide,
   C10_dropOldest_evicts_highest_priority c10config c10s2 reqD 2 rfl rfl (by decide)
     (by decide) (by decide)⟩

/-- C4 counterexample to the claim as stated: a persistence-enabled queue over a
backend whose `removeItem` raises — `clear()` empties the in-memory queue but the
storage exception propagates to the caller (the `await storage.removeItem` in
`clear` is the one storage call not wrapped in try/catch). -/
theorem C4_clear_propagates_counterexample :
    c4config.persistToStorage = true ∧ c4storage.removeFails = true ∧
    (RequestQueue.clear c4config c4state).1 = Except.error () ∧
    (RequestQueue.clear c4config c4state).2.queue = [] :=
  ⟨rfl, rfl, rfl, rfl⟩

/-- C4 (corrected): `enqueue`, `dequeue` and `remove` route every storage write
through the try/catch in `saveToStorage`, and the construction-time reload through
the try/catch in `loadFromStorage`, so their outcome and the in-memory queue are
exactly what they would be with no storage attached at all — no storage fault
surfaces and the mutation completes.  `clear` also always completes the in-memory
emptying, but it propagates the failure of a raising `removeItem` backend. -/
theorem C4_storage_faults_swallowed :
    (∀ (config : QueueConfig) (q : List QueuedRequest) (st : Storage) (req : QueuedRequest),
      (RequestQueue.enqueue config ⟨q, Option.some st⟩ req).1 =
        (RequestQueue.enqueue config ⟨q, Option.none⟩ req).1 ∧
      (RequestQueue.enqueue config ⟨q, Option.some st⟩ req).2.queue =
        (RequestQueue.enqueue config ⟨q, Option.none⟩ req).2.queue) ∧
    (∀ (config : QueueConfig) (q : List QueuedRequest) (st : Storage),
      (RequestQueue.dequeue config ⟨q, Option.some st⟩).1 =
        (RequestQueue.dequeue config ⟨q, Option.none⟩).1 ∧
      (RequestQueue.dequeue config ⟨q, Option.some st⟩).2.queue =
        (RequestQueue.dequeue config ⟨q, Option.none⟩).2.queue) ∧
    (∀ (config : QueueConfig) (q : List QueuedRequest) (st : Storage) (i : String),
      (RequestQueue.remove config ⟨q, Option.some st⟩ i).1 =
        (RequestQueue.remove config ⟨q, Option.none⟩ i).1 ∧
      (RequestQueue.remove config ⟨q, Option.some st⟩ i).2.queue =
        (RequestQueue.remove config ⟨q, Option.none⟩ i).2.queue) ∧
    (∀ (config : QueueConfig) (st : Storage), st.getFails = true →
      (RequestQueue.mkQueue config (Option.some st)).queue = []) ∧
    (∀ (config : QueueConfig) (s : RequestQueue.State),
      (RequestQueue.clear config s).2.queue = [] ∧
      ((RequestQueue.clear config s).1 = Except.error () ↔
        config.persistToStorage = true ∧
          ∃ st, s.storage = Option.some st ∧ st.removeFails = true)) := by
  refine ⟨?_, ?_, ?_, ?_, ?_⟩
  · intro config q st req
    unfold RequestQueue.enqueue
    cases h : RequestQueue.atCapacity config q <;>
      cases hp : config.policy <;>
        simp_all [persistAfter_queue]
  · intro config q st
    unfold RequestQueue.dequeue
    cases q <;> simp [persistAfter_queue]
  · intro config q st i
    unfold RequestQueue.remove
    cases h : q.findIdx? (fun r => r.id == i) <;> simp [persistAfter_queue]
  · intro config st hget
    unfold RequestQueue.mkQueue RequestQueue.loadFromStorage storageGetItem
    cases hp : config.persistToStorage <;> simp [hget]
  · intro config s
    obtain ⟨q, sto⟩ := s
    unfold RequestQueue.clear storageRemoveItem
    cases hp : config.persistToStorage <;> rcases sto with _ | st
    · simp
    · simp
    · simp
    · cases hrf : st.removeFails <;> simp [hrf]

/-- C4 witness: the swallowing conjuncts applied to a concrete faulty backend —
a `setItem`/`getItem`/`removeItem`-raising storage — and a one-element queue. -/
theorem C4_storage_faults_swallowed_witness :
    ((RequestQueue.enqueue c4config ⟨[reqA], Option.some ⟨Option.none, true, true, true⟩⟩ reqB).1 =
      (RequestQueue.enqueue c4config ⟨[reqA], Option.none⟩ reqB).1 ∧
     (RequestQueue.enqueue c4config ⟨[reqA], Option.some ⟨Option.none, true, true, true⟩⟩ reqB).2.queue =
      (RequestQueue.enqueue c4config ⟨[reqA], Option.none⟩ reqB).2.queue) ∧
    (RequestQueue.mkQueue c4config (Option.some ⟨Option.none, true, true, true⟩)).queue = [] :=
  ⟨C4_storage_faults_swallowed.1 c4config [reqA] ⟨Option.none, true, true, true⟩ reqB,
   C4_storage_faults_swallowed.2.2.2.1 c4config ⟨Option.none, true, true, true⟩ rfl⟩

/-- C9 counterexample to the claim as stated: persist a queue whose single call holds
a live cancellation token; the reconstructed queue's entry carries NO token
(`saveToStorage` strips the `abortController` key before serializing, so the
token-recreating branch of `loadFromStorage` never fires on data it wrote). -/
theorem C9_no_token_reconstructed_counterexample :
    c9req.hasAbortController = true ∧
    (RequestQueue.loadFromStorage (RequestQueue.saveToStorage [c9req] c9storage) []).map
        QueuedRequest.hasAbortController = [false] := by
  decide

/-- C9 (corrected): serializing a persistence-enabled queue and reconstructing over
the same storage key yields exactly the original calls with only the cancellation
token cleared — same number of calls, identical id/url/method/headers/body/priority/
timestamp — and every restored entry carries no cancellation token. -/
theorem C9_persistence_roundtrip (q : List QueuedRequest) (st : Storage)
    (hset : st.setFails = false) (hget : st.getFails = false) :
    RequestQueue.loadFromStorage (RequestQueue.saveToStorage q st) [] =
      q.map (fun r => { r with hasAbortController := false }) ∧
    (∀ r ∈ RequestQueue.loadFromStorage (RequestQueue.saveToStorage q st) [],
      r.hasAbortController = false) := by
  have hmap : RequestQueue.loadFromStorage (RequestQueue.saveToStorage q st) [] =
      q.map (fun r => { r with hasAbortController := false }) := by
    unfold RequestQueue.saveToStorage RequestQueue.loadFromStorage
    unfold storageSetItem storageGetItem
    rw [hset]
    simp only [if_false, Bool.false_eq_true]
    rw [hget]
    simp only [if_false, Bool.false_eq_true, List.map_map]
    rfl
  refine ⟨hmap, ?_⟩
  rw [hmap]
  intro r hr
  obtain ⟨a, -, rfl⟩ := List.mem_map.1 hr
  rfl

/-- C9 witness: the round-trip applied to the concrete one-call queue `[c9req]`
(whose call holds headers, a priority and a token) over a healthy backend. -/
theorem C9_persistence_roundtrip_witness :
    RequestQueue.loadFromStorage (RequestQueue.saveToStorage [c9req] c9storage) [] =
      [c9req].map (fun r => { r with hasAbortController := false }) ∧
    (∀ r ∈ RequestQueue.loadFromStorage (RequestQueue.saveToStorage [c9req] c9storage) [],
      r.hasAbortController = false) :=
  C9_persistence_roundtrip [c9req] c9storage rfl rfl

/-- C1 (code bug): the monitoring callback can never emit `quality-changed` or
`type-changed` — the source stores the incoming status into `this.currentStatus`
before comparing, so both guards compare the new status against itself.  In
particular, for the failing input (stored quality `strong`/type `wifi`, incoming
quality `weak`/type `cellular`, both online) the callback emits no event at all,
although both the quality and the link type changed. -/
theorem C1_quality_type_events_never_emitted :
    (∀ currentStatus incoming : NetworkStatus,
      (NetworkHandler.monitorCallback currentStatus incoming).2.filter
        (fun ev => ev.type == NetworkEventType.qualityChanged ||
          ev.type == NetworkEventType.typeChanged) = []) ∧
    c1previous.quality ≠ c1incoming.quality ∧
    c1previous.type ≠ c1incoming.type ∧
    (NetworkHandler.monitorCallback c1previous c1incoming).2 = [] := by
  refine ⟨?_, by decide, by decide, by decide⟩
  intro currentStatus incoming
  unfold NetworkHandler.monitorCallback
  simp only [ne_eq, not_true_eq_false, if_false]
  by_cases h1 : currentStatus.isOnline
  · by_cases h2 : incoming.isOnline <;> simp [h1, h2]
  · by_cases h2 : incoming.isOnline <;> simp [h1, h2]

/-- C2 counterexample to the claim as stated: the construction-time snapshot of
`NetworkHandler` (and likewise `WebNetworkDetector.getInitialStatus` with no
navigator) reports `isOnline = false` with quality `medium`, not `weak`. -/
theorem C2_offline_initial_medium_counterexample :
    NetworkHandler.initialStatus.isOnline = false ∧
    NetworkHandler.initialStatus.quality = NetworkQuality.medium ∧
    NetworkQuality.medium ≠ NetworkQuality.weak ∧
    (WebNetworkDetector.getInitialStatus Option.none NetworkType.unknown 0).isOnline = false ∧
    (WebNetworkDetector.getInitialStatus Option.none NetworkType.unknown 0).quality =
      NetworkQuality.medium := by
  decide

/-- C2 (corrected): snapshots produced by the offline transition handler do satisfy
the invariant — `handleOffline` always yields `isOnline = false` with quality forced
to `weak`, without probing — but the construction-time initial snapshots (both the
detector's and the handler's) carry quality `medium` regardless of `isOnline`, so an
initially-offline snapshot violates "offline implies weak". -/
theorem C2_offline_forces_weak_on_transition :
    (∀ (config : DetectorConfig) (current : NetworkStatus) (probe : Latency)
        (probeThroughput : ℚ) (now : Nat),
      (WebNetworkDetector.handleOffline config current probe probeThroughput now).isOnline
          = false ∧
      (WebNetworkDetector.handleOffline config current probe probeThroughput now).quality
          = NetworkQuality.weak) ∧
    (∀ (nav : Option Bool) (t : NetworkType) (now : Nat),
      (WebNetworkDetector.getInitialStatus nav t now).quality = NetworkQuality.medium) ∧
    NetworkHandler.initialStatus.quality = NetworkQuality.medium := by
  refine ⟨?_, fun nav t now => rfl, rfl⟩
  intro config current probe probeThroughput now
  unfold WebNetworkDetector.handleOffline WebNetworkDetector.updateStatus
  simp

/-- C3 counterexample to the claim as stated: with the non-empty explicit list
`retryableStatusCodes = [418]`, a failure carrying HTTP status 500 (matching no tag,
transport or message criterion) is classified retryable — the default
`>=500 / 408 / 429` rule still applies even though an explicit list was given, so
"retryable iff the status is in the list" fails. -/
theorem C3_default_rule_despite_list_counterexample :
    c3config.retryableStatuses = Option.some [418] ∧
    ([418].contains 500) = false ∧
    c3error.responseStatus = Option.some 500 ∧
    retryableErrorsCheck c3error c3config = false ∧
    typeErrorCheck c3error = false ∧
    nameCheck c3error = false ∧
    codeCheck c3error = false ∧
    messageCheck c3error = false ∧
    isRetryableError c3error c3config = true := by
  decide

/-- C3 (corrected): for a failure whose only applicable criterion is its HTTP status
(and the status is truthy), `isRetryableError` returns true iff the status is in the
explicit `retryableStatusCodes` list (when one is given) OR matches the default rule
`>=500, 408, 429` — the explicit list extends the default rule rather than replacing
it; and a failure matching no criterion at all is non-retryable. -/
theorem C3_explicit_list_extends_defaults :
    (∀ (e : JsError) (config : RetryConfig) (s : Nat),
      e.responseStatus = Option.some s → s ≠ 0 →
      retryableErrorsCheck e config = false → typeErrorCheck e = false →
      nameCheck e = false → codeCheck e = false → messageCheck e = false →
      (isRetryableError e config = true ↔
        (∃ l, config.retryableStatuses = Option.some l ∧ s ∈ l) ∨
          500 ≤ s ∨ s = 408 ∨ s = 429)) ∧
    (∀ (e : JsError) (config : RetryConfig),
      retryableErrorsCheck e config = false → typeErrorCheck e = false →
      nameCheck e = false → codeCheck e = false → messageCheck e = false →
      statusCheck e config = false →
      isRetryableError e config = false) := by
  constructor
  · intro e config s hs hs0 h1 h2 h3 h4 h5
    unfold isRetryableError statusCheck
    rw [h1, h2, h3, h4, h5, hs]
    simp only [Bool.false_or, Bool.and_eq_true, Bool.or_eq_true, decide_eq_true_eq]
    cases hl : config.retryableStatuses with
    | none =>
      constructor
      · rintro ⟨-, hfalse | h⟩
        · exact absurd hfalse (by simp)
        · tauto
      · rintro (⟨l2, hl2, -⟩ | h)
        · exact absurd hl2 (by simp)
        · exact ⟨hs0, by tauto⟩
    | some l =>
      constructor
      · rintro ⟨-, hmem | h⟩
        · exact Or.inl ⟨l, rfl, List.elem_iff.1 hmem⟩
        · tauto
      · rintro (⟨l2, hl2, hmem⟩ | h)
        · injection hl2 with hll
          subst hll
          exact ⟨hs0, Or.inl (List.elem_iff.2 hmem)⟩
        · exact ⟨hs0, by tauto⟩
  · intro e config h1 h2 h3 h4 h5 h6
    unfold isRetryableError
    rw [h1, h2, h3, h4, h5, h6]
    rfl

/-- C3 witness: the first part applied to a failure with status 418 and the explicit
list `[418]` — retryable through list membership although 418 matches no default. -/
theorem C3_explicit_list_extends_defaults_witness :
    isRetryableError { responseStatus := Option.some 418, strRepr := "e" } c3config = true ↔
      (∃ l, c3config.retryableStatuses = Option.some l ∧ 418 ∈ l) ∨
        500 ≤ 418 ∨ 418 = 408 ∨ 418 = 429 :=
  C3_explicit_list_extends_defaults.1 { responseStatus := Option.some 418, strRepr := "e" }
    c3config 418 rfl (by decide) (by decide) (by decide) (by decide) (by decide) (by decide)

theorem retryAux_allFail {α : Type} (config : RetryConfig) (err : Nat → JsError)
    (rand : Nat → ℚ) (j : Nat) :
    ∀ (rem a : Nat) (last : Option JsError),
      j < rem →
      (∀ i, a ≤ i → i < a + j → isRetryableError (err i) config = true) →
      (isRetryableError (err (a + j)) config = false ∨ j + 1 = rem) →
      retryAux (α := α) (fun i => Except.error (err i)) config rand false a rem last =
        (RetryOutcome.err (err (a + j)),
         (List.range (j + 1)).map (fun i => i + a),
         (List.range j).map (fun i => calculateRetryDelay (a + i) config (rand (a + i)))) := by
  induction j with
  | zero =>
    intro rem a last hlt hr hl
    obtain ⟨rem2, rfl⟩ : ∃ rem2, rem = rem2 + 1 := ⟨rem - 1, by omega⟩
    rw [retryAux]
    simp only [Bool.false_eq_true, if_false, Nat.add_zero] at hl ⊢
    by_cases hra : isRetryableError (err a) config = true
    · have hrem2 : rem2 = 0 := by
        rcases hl with hl | hl
        · rw [hra] at hl
          cases hl
        · omega
      subst hrem2
      simp [hra, List.range_succ]
    · have hra2 : isRetryableError (err a) config = false := by
        cases h : isRetryableError (err a) config
        · rfl
        · exact absurd h hra
      simp [hra2, List.range_succ]
  | succ j ih =>
    intro rem a last hlt hr hl
    obtain ⟨rem2, rfl⟩ : ∃ rem2, rem = rem2 + 1 := ⟨rem - 1, by omega⟩
    have hra : isRetryableError (err a) config = true := hr a (le_refl a) (by omega)
    have hrem2 : ¬ rem2 = 0 := by omega
    rw [retryAux]
    simp only [Bool.false_eq_true, if_false, hra, Bool.not_true, hrem2]
    have hshift : a + 1 + j = a + (j + 1) := by omega
    have ihr : retryAux (α := α) (fun i => Except.error (err i)) config rand false (a + 1)
        rem2 (Option.some (err a)) =
        (RetryOutcome.err (err (a + 1 + j)),
         (List.range (j + 1)).map (fun i => i + (a + 1)),
         (List.range j).map (fun i => calculateRetryDelay (a + 1 + i) config (rand (a + 1 + i)))) := by
      refine ih rem2 (a + 1) (Option.some (err a)) (by omega) ?_ ?_
      · intro i hi1 hi2
        exact hr i (by omega) (by omega)
      · rw [hshift]
        rcases hl with hl | hl
        · exact Or.inl hl
        · exact Or.inr (by omega)
    have hattempts : List.map (fun i => i + a) (List.range (j + 1 + 1)) =
        a :: List.map (fun i => i + (a + 1)) (List.range (j + 1)) := by
      rw [List.range_succ_eq_map (j + 1), List.map_cons, List.map_map]
      congr 1
      · omega
      refine List.map_congr_left ?_
      intro i hi
      show Nat.succ i + a = i + (a + 1)
      omega
    have hwaits : List.map (fun i => calculateRetryDelay (a + i) config (rand (a + i)))
        (List.range (j + 1)) =
        calculateRetryDelay a config (rand a) ::
          List.map (fun i => calculateRetryDelay (a + 1 + i) config (rand (a + 1 + i)))
            (List.range j) := by
      rw [List.range_succ_eq_map j, List.map_cons, List.map_map]
      congr 1
      refine List.map_congr_left ?_
      intro i hi
      show calculateRetryDelay (a + Nat.succ i) config (rand (a + Nat.succ i)) =
        calculateRetryDelay (a + 1 + i) config (rand (a + 1 + i))
      rw [show a + Nat.succ i = a + 1 + i by omega]
    rw [ihr]
    dsimp only
    rw [hshift, hattempts, hwaits]

/-- C5 (confirmed): an operation failing on every attempt (with all failures before
attempt `k` retryable, and attempt `k` either non-retryable or the final
`maxAttempts` attempt) is invoked exactly with attempt numbers `1..k`; each
non-final failing attempt is followed by one wait of `calculateRetryDelay(attempt)`;
and the failure of attempt `k` propagates as the original failure value unmodified.
With `k = maxAttempts` and all failures retryable this is the spec scenario:
attempts `1..maxAttempts`, waits for attempts `1..maxAttempts-1`, final failure
re-raised. -/
theorem C5_retry_loop {α : Type} (config : RetryConfig) (err : Nat → JsError)
    (rand : Nat → ℚ) (k : Nat) (hk1 : 1 ≤ k) (hk2 : k ≤ config.maxAttempts)
    (hr : ∀ i, i < k → 1 ≤ i → isRetryableError (err i) config = true)
    (hl : isRetryableError (err k) config = false ∨ k = config.maxAttempts) :
    executeWithRetry (α := α) (fun i => Except.error (err i)) config rand false =
      (RetryOutcome.err (err k),
       (List.range k).map (fun i => i + 1),
       (List.range (k - 1)).map
         (fun i => calculateRetryDelay (1 + i) config (rand (1 + i)))) := by
  obtain ⟨j, rfl⟩ : ∃ j, k = j + 1 := ⟨k - 1, by omega⟩
  unfold executeWithRetry
  have h1j : 1 + j = j + 1 := by omega
  refine (retryAux_allFail config err rand j config.maxAttempts 1 Option.none
    (by omega) ?_ ?_).trans ?_
  · intro i hi1 hi2
    exact hr i (by omega) hi1
  · rw [h1j]
    rcases hl with hl | hl
    · exact Or.inl hl
    · exact Or.inr (by omega)
  · rw [h1j]
    simp only [Nat.add_sub_cancel]

/-- C5 witness: the spec example — `baseDelayMs=100, strategy=fixed, maxAttempts=3`,
an always-failing retryable operation: attempts 1, 2, 3 are invoked, exactly two
waits of 100ms occur, and the third failure propagates unmodified. -/
theorem C5_retry_loop_witness :
    executeWithRetry (α := Unit) (fun _ => Except.error c5error) c5config (fun _ => 0) false =
      (RetryOutcome.err c5error,
       (List.range 3).map (fun i => i + 1),
       (List.range 2).map (fun i => calculateRetryDelay (1 + i) c5config 0)) ∧
    (List.range 3).map (fun i => i + 1) = [1, 2, 3] ∧
    (List.range 2).map (fun i => calculateRetryDelay (1 + i) c5config 0) = [100, 100] :=
  ⟨C5_retry_loop c5config (fun _ => c5error) (fun _ => 0) 3 (by decide) (by decide)
     (fun _ _ _ => (by decide : isRetryableError c5error c5config = true)) (Or.inr rfl),
   by decide,
   by simp [calculateRetryDelay, c5config, Int.floor_natCast]⟩

/-- C6 counterexample to the claim as stated: partial jitter with `baseDelayMs = 1`,
attempt 1 and the legal `Math.random()` draw `r = 2/5` produces the raw delay
`7/10`, floored to `0` — strictly below the claimed lower bound
`baseDelayMs * 2^(attempt-1) / 2 = 1/2`. -/
theorem C6_partial_jitter_below_bound_counterexample :
    (0 ≤ (2/5 : ℚ) ∧ (2/5 : ℚ) < 1) ∧
    c6config.strategy = RetryStrategy.exponentialPartialJitter ∧
    c6config.maxDelay = Option.none ∧
    calculateRetryDelay 1 c6config (2/5) = 0 ∧
    ¬ (c6config.baseDelay * 2 ^ (1 - 1) / 2 ≤ ((calculateRetryDelay 1 c6config (2/5) : Int) : ℚ)) := by
  have hval : calculateRetryDelay 1 c6config (2/5) = 0 := by
    simp only [calculateRetryDelay, c6config]
    norm_num
  refine ⟨⟨by norm_num, by norm_num⟩, rfl, rfl, hval, ?_⟩
  rw [hval]
  show ¬ ((1 : ℚ) * 2 ^ (1 - 1) / 2 ≤ ((0 : Int) : ℚ))
  norm_num

/-- C6 (corrected): `computeDelay` always returns a nonnegative integer; for integer
`baseDelayMs = n` and no cap it returns exactly `n` (fixed) and `n * 2^(attempt-1)`
(exponential), independently of the random draw; full jitter stays within
`[0, base * 2^(attempt-1)]`; partial jitter stays within
`[⌊base * 2^(attempt-1) / 2⌋, base * 2^(attempt-1)]` — the lower bound is the FLOOR
of half the exponential value, not half itself, because the raw delay is floored to
an integer; and any configured `maxDelayMs = m` caps the result at `m`. -/
theorem C6_delay_bounds :
    (∀ (attempt : Nat) (config : RetryConfig) (r : ℚ),
      0 ≤ calculateRetryDelay attempt config r) ∧
    (∀ (attempt : Nat) (n : Nat) (config : RetryConfig) (r : ℚ), 1 ≤ attempt →
      config.strategy = RetryStrategy.fixed → config.baseDelay = (n : ℚ) →
      config.maxDelay = Option.none →
      calculateRetryDelay attempt config r = (n : Int)) ∧
    (∀ (attempt : Nat) (n : Nat) (config : RetryConfig) (r : ℚ), 1 ≤ attempt →
      config.strategy = RetryStrategy.exponential → config.baseDelay = (n : ℚ) →
      config.maxDelay = Option.none →
      calculateRetryDelay attempt config r = (n : Int) * 2 ^ (attempt - 1)) ∧
    (∀ (attempt : Nat) (config : RetryConfig) (r : ℚ), 1 ≤ attempt →
      config.strategy = RetryStrategy.exponentialJitter → config.maxDelay = Option.none →
      0 ≤ config.baseDelay → 0 ≤ r → r < 1 →
      ((calculateRetryDelay attempt config r : Int) : ℚ) ≤
        config.baseDelay * 2 ^ (attempt - 1)) ∧
    (∀ (attempt : Nat) (config : RetryConfig) (r : ℚ), 1 ≤ attempt →
      config.strategy = RetryStrategy.exponentialPartialJitter →
      config.maxDelay = Option.none →
      0 ≤ config.baseDelay → 0 ≤ r → r < 1 →
      ⌊config.baseDelay * 2 ^ (attempt - 1) / 2⌋ ≤ calculateRetryDelay attempt config r ∧
      ((calculateRetryDelay attempt config r : Int) : ℚ) ≤
        config.baseDelay * 2 ^ (attempt - 1)) ∧
    (∀ (attempt : Nat) (config : RetryConfig) (r : ℚ) (m : Nat),
      config.maxDelay = Option.some (m : ℚ) →
      calculateRetryDelay attempt config r ≤ (m : Int)) := by
  refine ⟨?_, ?_, ?_, ?_, ?_, ?_⟩
  · intro attempt config r
    unfold calculateRetryDelay
    exact le_max_left 0 _
  · intro attempt n config r ha hstrat hbase hmax
    simp only [calculateRetryDelay, hstrat, hbase, hmax, Int.floor_natCast]
    exact max_eq_right (Int.natCast_nonneg n)
  · intro attempt n config r ha hstrat hbase hmax
    simp only [calculateRetryDelay, hstrat, hbase, hmax]
    have hcast : (n : ℚ) * 2 ^ (attempt - 1) = (((n : Int) * 2 ^ (attempt - 1) : Int) : ℚ) := by
      push_cast
      ring
    rw [hcast, Int.floor_intCast]
    exact max_eq_right (by positivity)
  · intro attempt config r ha hstrat hmax hb hr0 hr1
    simp only [calculateRetryDelay, hstrat, hmax]
    push_cast [Int.cast_max]
    refine max_le (by positivity) ?_
    refine (Int.floor_le _).trans ?_
    calc r * (config.baseDelay * 2 ^ (attempt - 1))
        ≤ 1 * (config.baseDelay * 2 ^ (attempt - 1)) :=
          mul_le_mul_of_nonneg_right (le_of_lt hr1) (by positivity)
      _ = config.baseDelay * 2 ^ (attempt - 1) := one_mul _
  · intro attempt config r ha hstrat hmax hb hr0 hr1
    simp only [calculateRetryDelay, hstrat, hmax]
    set d : ℚ := config.baseDelay * 2 ^ (attempt - 1) with hd
    have hdnn : 0 ≤ d := by positivity
    have hhalf : d - d / 2 = d / 2 := sub_half d
    constructor
    · refine le_trans ?_ (le_max_right 0 _)
      refine Int.floor_le_floor ?_
      refine le_add_of_nonneg_right ?_
      rw [hhalf]
      exact mul_nonneg hr0 (by positivity)
    · push_cast [Int.cast_max]
      refine max_le (by positivity) ?_
      refine (Int.floor_le _).trans ?_
      rw [hhalf]
      have hmul : r * (d / 2) ≤ 1 * (d / 2) :=
        mul_le_mul_of_nonneg_right (le_of_lt hr1) (by positivity)
      rw [one_mul] at hmul
      linarith
  · intro attempt config r m hmax
    simp only [calculateRetryDelay, hmax]
    refine max_le (Int.natCast_nonneg m) ?_
    refine (Int.floor_le_floor (min_le_right _ _)).trans ?_
    exact le_of_eq (Int.floor_natCast m)

/-- C6 witness: the partial-jitter bounds applied to `baseDelayMs = 5`, attempt 3,
`r = 0` — the delay lies in `[⌊20/2⌋, 20] = [10, 20]` — plus the fixed-strategy
conjunct applied to the C5 config (delay exactly 100). -/
theorem C6_delay_bounds_witness :
    (⌊c6configW.baseDelay * 2 ^ (3 - 1) / 2⌋ ≤ calculateRetryDelay 3 c6configW 0 ∧
      ((calculateRetryDelay 3 c6configW 0 : Int) : ℚ) ≤
        c6configW.baseDelay * 2 ^ (3 - 1)) ∧
    calculateRetryDelay 7 c5config 0 = (100 : Int) :=
  ⟨C6_delay_bounds.2.2.2.2.1 3 c6configW 0 (by decide) rfl rfl
     (by exact Nat.cast_nonneg 5) (le_refl 0) zero_lt_one,
   C6_delay_bounds.2.1 7 100 c5config 0 (by decide) rfl rfl rfl⟩
